import Mathlib

/-!
Shallow embedding of `src/server/server.js` (manjulamobilesworld backend):
the product catalog with its single-slot in-memory cache, the tracking and
order routes, and the socket event broadcasts. Mongo documents are modelled
as Lean structures whose optional schema fields are `Option`-valued; the
Mongo `_id` of a product is a `Nat` assigned from a monotone counter
(Mongo ObjectIds grow over time, which is what the descending-id sort of
the list query relies on). Time is an explicit `Nat` parameter standing for
`Date.now()` in milliseconds.
-/

set_option autoImplicit false

namespace MMW

/-- The mutable schema fields of a product (`productSchema`, server.js lines
51-71). None of them is `required`, so a stored document may lack any of
them: each is `Option`-valued. A PATCH body is a value of the same type,
`none` meaning the field is absent from the request body. -/
structure ProductFields where
  name : Option String := none
  category : Option String := none
  price : Option Int := none
  originalPrice : Option Int := none
  image : Option String := none
  imageUrl : Option String := none
  imageUrl2 : Option String := none
  rating : Option Int := none
  reviews : Option Int := none
  inStock : Option Bool := none
  badge : Option String := none
  qrId : Option String := none
  qrPassword : Option String := none
  trackingStatus : Option String := none
  ownerGender : Option String := none
  deriving DecidableEq

/-- A stored product document: Mongo `_id` plus the schema fields. -/
structure Product where
  mongoId : Nat
  fields : ProductFields
  deriving DecidableEq

/-- The client-facing product produced by the handlers:
the object spread plus `id: p._id.toString()` keeps every stored field and adds the
string `id` (GET line 347-350, POST line 382-385, PATCH line 412-415). -/
structure TransformedProduct where
  mongoId : Nat
  fields : ProductFields
  id : String
  deriving DecidableEq

def transformProduct (p : Product) : TransformedProduct :=
  ⟨p.mongoId, p.fields, toString p.mongoId⟩

/-- Tracking document (`trackingSchema`, lines 91-103). `qrId` is required
and unique; the rest are optional. -/
structure TrackingRecord where
  qrId : String
  qrPassword : Option String := none
  customerName : Option String := none
  productName : Option String := none
  deviceModel : Option String := none
  contact : Option String := none
  status : Option String := none
  issue : Option String := none
  estimatedDays : Option Int := none
  createdAt : Option String := none
  lastUpdated : Option String := none
  deriving DecidableEq

/-- Embedded customer of an order (lines 110-115). -/
structure Customer where
  name : Option String := none
  phone : Option String := none
  email : Option String := none
  address : Option String := none
  deriving DecidableEq

/-- A line item of an order (lines 116-122): a snapshot, not a live
reference to a Product. -/
structure OrderItem where
  itemId : Option Int := none
  name : Option String := none
  price : Option Int := none
  quantity : Option Int := none
  image : Option String := none
  deriving DecidableEq

/-- Payment screenshot subdocument (lines 127-132). -/
structure PaymentScreenshot where
  imageUrl : Option String := none
  data : Option String := none
  fileName : Option String := none
  uploadTime : Option String := none
  deriving DecidableEq

/-- Order document (`orderSchema`, lines 108-136). `orderId` is required and
unique, `status` defaults to Pending, `orderDate` defaults to now. -/
structure Order where
  orderId : String
  customer : Option Customer := none
  items : List OrderItem := []
  total : Option Int := none
  paymentMethod : Option String := none
  status : String := "Pending"
  orderDate : Nat := 0
  paymentScreenshot : Option PaymentScreenshot := none
  deriving DecidableEq

/-- The Mongo database contents plus the counter from which new product
object ids are drawn (ObjectIds grow with time). New products are kept at
the head; the GET query sorts by descending `_id` anyway. -/
structure StoreState where
  products : List Product := []
  nextProductId : Nat := 0
  tracking : List TrackingRecord := []
  orders : List Order := []
  deriving DecidableEq

/-- The full mutable server state: database plus the module-level cache slot
`productsCache` / `cacheTimestamp` (lines 320-321). -/
structure ServerState where
  store : StoreState
  productsCache : Option (List TransformedProduct) := none
  cacheTimestamp : Nat := 0
  deriving DecidableEq

/-- The socket events the server emits (`io.emit` calls). A `null` payload
is modelled as `none`. -/
inductive Event where
  | productAdded (p : TransformedProduct)
  | productUpdated (p : TransformedProduct)
  | productDeleted (id : String)
  | trackingAdded (t : TrackingRecord)
  | trackingUpdated (t : Option TrackingRecord)
  | trackingDeleted (qrId : String)
  | orderAdded (o : Order)
  | orderUpdated (o : Option Order)
  | orderDeleted (orderId : String)
  deriving DecidableEq

/-- HTTP outcome of a handler, tagged with the payload type of the 200
branch. `badRequest` is status 400, `notFound` 404, `serverError` 500. -/
inductive ApiResp (α : Type) where
  | ok (body : α)
  | badRequest (msg : String)
  | notFound (msg : String)
  | serverError (msg : String)
  deriving DecidableEq

def ApiResp.isOk {α : Type} : ApiResp α → Bool
  | .ok _ => true
  | _ => false

def ApiResp.isNotFound {α : Type} : ApiResp α → Bool
  | .notFound _ => true
  | _ => false

def ApiResp.isBadRequest {α : Type} : ApiResp α → Bool
  | .badRequest _ => true
  | _ => false

/-- The observable effects of one handler invocation, in the order the
statements execute. `storeWrite` is the awaited Mongo write, `invalidate`
the `productsCache = null` assignment, `publish` an `io.emit`, `respond`
the `res.json` / `res.status` call producing the HTTP response. -/
inductive Eff where
  | storeWrite
  | invalidate
  | publish
  | respond
  deriving DecidableEq

/-- Index of the first occurrence of an effect in a trace (length of the
trace if absent). -/
def idxOfEff (e : Eff) : List Eff → Nat
  | [] => 0
  | x :: xs => if x = e then 0 else idxOfEff e xs + 1

/-- Result of one write-handler invocation: HTTP response, post state,
emitted events (in emission order) and the effect trace. -/
structure WriteOut (α : Type) where
  response : ApiResp α
  state : ServerState
  events : List Event
  trace : List Eff
  deriving DecidableEq

/-! ## Product list query and cache (GET /api/products, lines 319-375) -/

/-- `CACHE_DURATION = 60000` ms (line 322). -/
def CACHE_DURATION : Nat := 60000

/-- Insert into a list kept sorted by descending `_id`. -/
def insertDesc (p : Product) : List Product → List Product
  | [] => [p]
  | q :: qs => if q.mongoId ≤ p.mongoId then p :: q :: qs else q :: insertDesc p qs

/-- Sort by descending `_id`, the descending-id sort of the query. -/
def sortByIdDesc (l : List Product) : List Product :=
  l.foldr insertDesc []

/-- The database read of the GET handler (lines 340-350):
`Product.find().lean().select(...).limit(100)` with the descending-id sort —
MongoDB applies the sort before the limit — followed by the `_id`-to-`id`
transform. The `select` only strips `__v` and the timestamps, which this
model does not carry. -/
def queryProducts (st : StoreState) : List TransformedProduct :=
  ((sortByIdDesc st.products).take 100).map transformProduct

/-- Result of a GET /api/products invocation; `fromCache` records whether
the cached snapshot was served (the instant path of lines 331-336). -/
structure GetResult where
  response : List TransformedProduct
  state : ServerState
  fromCache : Bool
  deriving DecidableEq

/-- GET /api/products handler (lines 325-375) as one atomic step: if the
cache slot is non-null and younger than `CACHE_DURATION`, serve it with no
state change; otherwise query the store, populate the cache (timestamp =
the `now` captured at handler start) and return the list. -/
def getProducts (now : Nat) (s : ServerState) : GetResult :=
  match s.productsCache with
  | some cached =>
      if now - s.cacheTimestamp < CACHE_DURATION then
        ⟨cached, s, true⟩
      else
        let products := queryProducts s.store
        ⟨products, { s with productsCache := some products, cacheTimestamp := now }, false⟩
  | none =>
      let products := queryProducts s.store
      ⟨products, { s with productsCache := some products, cacheTimestamp := now }, false⟩

/-- The tail of the GET miss path after the awaited `Product.find()`
resolves (lines 347-361): transform, populate the cache slot with the query
snapshot, stamp it with the `now` captured at handler start, respond with
the snapshot. Between the query and this step other requests may run: the
populate overwrites the slot unconditionally, there is no version check. -/
def readMissComplete (now : Nat) (snapshot : List TransformedProduct)
    (s : ServerState) : ServerState × List TransformedProduct :=
  ({ s with productsCache := some snapshot, cacheTimestamp := now }, snapshot)

/-! ## Product write handlers (lines 378-445) -/

/-- POST /api/products (lines 378-395): build the document from the body
(schema fields only), save it with a fresh `_id`, null the cache slot, emit
`product-added` with the transformed product, respond with it. The schema
has no required product field, so `save()` succeeds on every typed body. -/
def createProductHandler (body : ProductFields) (s : ServerState) : WriteOut TransformedProduct :=
  let p : Product := ⟨s.store.nextProductId, body⟩
  let store2 : StoreState :=
    { s.store with products := p :: s.store.products, nextProductId := s.store.nextProductId + 1 }
  let tp := transformProduct p
  { response := .ok tp
    state := { s with store := store2, productsCache := none }
    events := [.productAdded tp]
    trace := [.storeWrite, .invalidate, .publish, .respond] }

/-- Merge of a `$set` patch into a stored document: fields present in the
patch replace the stored value, absent fields keep it. -/
def setField {α : Type} : Option α → Option α → Option α
  | some v, _ => some v
  | none, old => old

/-- The `$set: req.body` update on a product document (line 402): only the
supplied fields are updated. -/
def applyPatch (old patch : ProductFields) : ProductFields where
  name := setField patch.name old.name
  category := setField patch.category old.category
  price := setField patch.price old.price
  originalPrice := setField patch.originalPrice old.originalPrice
  image := setField patch.image old.image
  imageUrl := setField patch.imageUrl old.imageUrl
  imageUrl2 := setField patch.imageUrl2 old.imageUrl2
  rating := setField patch.rating old.rating
  reviews := setField patch.reviews old.reviews
  inStock := setField patch.inStock old.inStock
  badge := setField patch.badge old.badge
  qrId := setField patch.qrId old.qrId
  qrPassword := setField patch.qrPassword old.qrPassword
  trackingStatus := setField patch.trackingStatus old.trackingStatus
  ownerGender := setField patch.ownerGender old.ownerGender

/-- `Product.findByIdAndUpdate` with a `$set` body and the new-document
option:
update the document with the given `_id` in place, return the updated
document (`new: true`) or `none` if the id resolves to nothing. -/
def updateById (id : Nat) (patch : ProductFields) :
    List Product → Option Product × List Product
  | [] => (none, [])
  | p :: ps =>
      if p.mongoId = id then
        let p2 : Product := ⟨p.mongoId, applyPatch p.fields patch⟩
        (some p2, p2 :: ps)
      else
        let r := updateById id patch ps
        (r.1, p :: r.2)

/-- PATCH /api/products/:id (lines 398-426). When the id resolves to no
document, `findByIdAndUpdate` yields `null` and the very next statement —
`console.log("product id: ", product._id)` on line 406 — throws a
`TypeError` that the `catch` turns into a 500 response; the
`if (!product) return res.status(404)` check on lines 408-410 sits below
that log line and is unreachable. On success: transform, null the cache
slot, emit `product-updated`, respond with the updated product. -/
def patchProductHandler (id : Nat) (body : ProductFields) (s : ServerState) :
    WriteOut TransformedProduct :=
  match updateById id body s.store.products with
  | (none, _) =>
      { response := .serverError "TypeError: Cannot read properties of null"
        state := s
        events := []
        trace := [.respond] }
  | (some p, products2) =>
      let tp := transformProduct p
      { response := .ok tp
        state := { s with store := { s.store with products := products2 }, productsCache := none }
        events := [.productUpdated tp]
        trace := [.storeWrite, .invalidate, .publish, .respond] }

/-- `Product.findByIdAndDelete(id)`: remove the document with the given
`_id`, returning it, or return `none` leaving the list unchanged. -/
def deleteById (id : Nat) : List Product → Option Product × List Product
  | [] => (none, [])
  | p :: ps =>
      if p.mongoId = id then
        (some p, ps)
      else
        let r := deleteById id ps
        (r.1, p :: r.2)

/-- DELETE /api/products/:id (lines 428-445): 404 if the id resolves to no
document — before any cache or bus effect; otherwise delete, null the cache
slot, emit `product-deleted` with the id only, respond with success. -/
def deleteProductHandler (id : Nat) (s : ServerState) : WriteOut Bool :=
  match deleteById id s.store.products with
  | (none, _) =>
      { response := .notFound "Product not found"
        state := s
        events := []
        trace := [.respond] }
  | (some _, products2) =>
      { response := .ok true
        state := { s with store := { s.store with products := products2 }, productsCache := none }
        events := [.productDeleted (toString id)]
        trace := [.storeWrite, .invalidate, .publish, .respond] }

/-! ## Tracking routes (lines 448-490) -/

/-- A PUT /api/tracking/:qrId request body: Mongoose casts a plain object
update to `$set`, so each field is optional. -/
structure TrackingBody where
  qrId : Option String := none
  qrPassword : Option String := none
  customerName : Option String := none
  productName : Option String := none
  deviceModel : Option String := none
  contact : Option String := none
  status : Option String := none
  issue : Option String := none
  estimatedDays : Option Int := none
  createdAt : Option String := none
  lastUpdated : Option String := none
  deriving DecidableEq

/-- `$set` of a tracking body into a stored record. -/
def applyTrackingUpdate (old : TrackingRecord) (b : TrackingBody) : TrackingRecord where
  qrId := b.qrId.getD old.qrId
  qrPassword := setField b.qrPassword old.qrPassword
  customerName := setField b.customerName old.customerName
  productName := setField b.productName old.productName
  deviceModel := setField b.deviceModel old.deviceModel
  contact := setField b.contact old.contact
  status := setField b.status old.status
  issue := setField b.issue old.issue
  estimatedDays := setField b.estimatedDays old.estimatedDays
  createdAt := setField b.createdAt old.createdAt
  lastUpdated := setField b.lastUpdated old.lastUpdated

/-- `Tracking.findOneAndUpdate` filtered by qrId, with the new-document
option:
update the first record whose `qrId` matches, return the updated record, or
`none` leaving the list unchanged when the key is absent. -/
def findOneAndUpdateTracking (qrId : String) (b : TrackingBody) :
    List TrackingRecord → Option TrackingRecord × List TrackingRecord
  | [] => (none, [])
  | t :: ts =>
      if t.qrId = qrId then
        let t2 := applyTrackingUpdate t b
        (some t2, t2 :: ts)
      else
        let r := findOneAndUpdateTracking qrId b ts
        (r.1, t :: r.2)

/-- PUT /api/tracking/:qrId (lines 468-480): the `findOneAndUpdate` result
is emitted and returned without any null check, so an absent key produces a
200 response with a `null` body and a `tracking-updated` event with a
`null` payload. -/
def putTrackingHandler (qrId : String) (b : TrackingBody) (s : ServerState) :
    WriteOut (Option TrackingRecord) :=
  let r := findOneAndUpdateTracking qrId b s.store.tracking
  { response := .ok r.1
    state := { s with store := { s.store with tracking := r.2 } }
    events := [.trackingUpdated r.1]
    trace := [.storeWrite, .publish, .respond] }

/-- `Tracking.findOneAndDelete` filtered by qrId: remove the first record
whose `qrId` matches, or leave the list unchanged. -/
def findOneAndDeleteTracking (qrId : String) :
    List TrackingRecord → Option TrackingRecord × List TrackingRecord
  | [] => (none, [])
  | t :: ts =>
      if t.qrId = qrId then
        (some t, ts)
      else
        let r := findOneAndDeleteTracking qrId ts
        (r.1, t :: r.2)

/-- DELETE /api/tracking/:qrId (lines 482-490): the delete result is
ignored — no null check — so the handler always emits `tracking-deleted`
with the qrId and responds with success, whether or not a record existed. -/
def deleteTrackingHandler (qrId : String) (s : ServerState) : WriteOut Bool :=
  let r := findOneAndDeleteTracking qrId s.store.tracking
  { response := .ok true
    state := { s with store := { s.store with tracking := r.2 } }
    events := [.trackingDeleted qrId]
    trace := [.storeWrite, .publish, .respond] }

/-! ## Order routes (lines 521-628) -/

/-- A POST /api/orders request body. `orderId` is required by the schema;
the handler copies the remaining fields explicitly (lines 547-555). -/
structure OrderRequest where
  orderId : String
  customer : Option Customer := none
  items : List OrderItem := []
  total : Option Int := none
  paymentMethod : Option String := none
  status : Option String := none
  orderDate : Option Nat := none
  paymentScreenshot : Option PaymentScreenshot := none
  deriving DecidableEq

/-- JS `a || b` on a string: the empty string is falsy. -/
def jsOrString (o : Option String) (d : String) : String :=
  match o with
  | some s => if s = "" then d else s
  | none => d

/-- JS `a || b` on a numeric timestamp: 0 is falsy. -/
def jsOrNat (o : Option Nat) (d : Nat) : Nat :=
  match o with
  | some n => if n = 0 then d else n
  | none => d

/-- The explicit `orderData` object of lines 547-573: copied request
fields, `status: req.body.status || "Pending"`,
`orderDate: req.body.orderDate || new Date()`, and the screenshot
subdocument when one was attached (only `data`, `fileName`, `uploadTime`
are copied; no `imageUrl` — no file is saved to disk). -/
def mkOrderData (now : Nat) (req : OrderRequest) (shot : Option PaymentScreenshot) : Order where
  orderId := req.orderId
  customer := req.customer
  items := req.items
  total := req.total
  paymentMethod := req.paymentMethod
  status := jsOrString req.status "Pending"
  orderDate := jsOrNat req.orderDate now
  paymentScreenshot := shot

/-- `new Order(orderData); order.save()` (lines 575-590): the unique index
on `orderId` makes `save` throw on a duplicate, which the `catch` turns
into a 500; otherwise the order is persisted, `order-added` is emitted and
the saved order is returned. -/
def saveOrderStep (now : Nat) (req : OrderRequest) (shot : Option PaymentScreenshot)
    (s : ServerState) : WriteOut Order :=
  if s.store.orders.any (fun o => o.orderId = req.orderId) then
    { response := .serverError "E11000 duplicate key error"
      state := s
      events := []
      trace := [.respond] }
  else
    let o := mkOrderData now req shot
    { response := .ok o
      state := { s with store := { s.store with orders := o :: s.store.orders } }
      events := [.orderAdded o]
      trace := [.storeWrite, .publish, .respond] }

/-- POST /api/orders (lines 521-595). The screenshot checks (lines 534-544)
run only when `req.body.paymentScreenshot && req.body.paymentScreenshot.data`
is truthy — an empty data string is falsy in JS and skips both the checks
and the storage. A data string that does not start with `data:image/` is
rejected 400 before anything is saved; one longer than 10 * 1024 * 1024
characters likewise. Otherwise the base64 string is stored verbatim with
the order. -/
def createOrderHandler (now : Nat) (req : OrderRequest) (s : ServerState) : WriteOut Order :=
  match req.paymentScreenshot with
  | some ss =>
      match ss.data with
      | some d =>
          if d = "" then
            saveOrderStep now req none s
          else if !(d.startsWith "data:image/") then
            { response := .badRequest "Invalid screenshot data format"
              state := s
              events := []
              trace := [.respond] }
          else if d.length > 10 * 1024 * 1024 then
            { response := .badRequest "Screenshot data too large"
              state := s
              events := []
              trace := [.respond] }
          else
            saveOrderStep now req
              (some { imageUrl := none, data := some d,
                      fileName := ss.fileName, uploadTime := ss.uploadTime }) s
      | none => saveOrderStep now req none s
  | none => saveOrderStep now req none s

/-- A PUT /api/orders/:orderId request body, cast to `$set` by Mongoose. -/
structure OrderUpdateBody where
  orderId : Option String := none
  customer : Option Customer := none
  items : Option (List OrderItem) := none
  total : Option Int := none
  paymentMethod : Option String := none
  status : Option String := none
  orderDate : Option Nat := none
  paymentScreenshot : Option PaymentScreenshot := none
  deriving DecidableEq

/-- `$set` of an order body into a stored order. -/
def applyOrderUpdate (old : Order) (b : OrderUpdateBody) : Order where
  orderId := b.orderId.getD old.orderId
  customer := setField b.customer old.customer
  items := b.items.getD old.items
  total := setField b.total old.total
  paymentMethod := setField b.paymentMethod old.paymentMethod
  status := b.status.getD old.status
  orderDate := b.orderDate.getD old.orderDate
  paymentScreenshot := setField b.paymentScreenshot old.paymentScreenshot

/-- `Order.findOneAndUpdate` filtered by orderId, with the new-document
option. -/
def findOneAndUpdateOrder (orderId : String) (b : OrderUpdateBody) :
    List Order → Option Order × List Order
  | [] => (none, [])
  | o :: os =>
      if o.orderId = orderId then
        let o2 := applyOrderUpdate o b
        (some o2, o2 :: os)
      else
        let r := findOneAndUpdateOrder orderId b os
        (r.1, o :: r.2)

/-- PUT /api/orders/:orderId (lines 597-609): like the tracking update, no
null check — an absent key produces a 200 response with a `null` body and
an `order-updated` event with a `null` payload. -/
def putOrderHandler (orderId : String) (b : OrderUpdateBody) (s : ServerState) :
    WriteOut (Option Order) :=
  let r := findOneAndUpdateOrder orderId b s.store.orders
  { response := .ok r.1
    state := { s with store := { s.store with orders := r.2 } }
    events := [.orderUpdated r.1]
    trace := [.storeWrite, .publish, .respond] }

/-- `Order.findOneAndDelete` filtered by orderId. -/
def findOneAndDeleteOrder (orderId : String) :
    List Order → Option Order × List Order
  | [] => (none, [])
  | o :: os =>
      if o.orderId = orderId then
        (some o, os)
      else
        let r := findOneAndDeleteOrder orderId os
        (r.1, o :: r.2)

/-- DELETE /api/orders/:orderId (lines 611-628): unlike the tracking
delete, this one checks the result and returns 404 when the orderId is
absent, with no event and no state change. -/
def deleteOrderHandler (orderId : String) (s : ServerState) : WriteOut Bool :=
  match findOneAndDeleteOrder orderId s.store.orders with
  | (none, _) =>
      { response := .notFound "Order not found"
        state := s
        events := []
        trace := [.respond] }
  | (some _, orders2) =>
      { response := .ok true
        state := { s with store := { s.store with orders := orders2 } }
        events := [.orderDeleted orderId]
        trace := [.storeWrite, .publish, .respond] }

/-! ## Helper lemmas -/

theorem mem_insertDesc (p q : Product) (l : List Product) :
    q ∈ insertDesc p l ↔ q = p ∨ q ∈ l := by
  induction l with
  | nil => simp [insertDesc]
  | cons x xs ih =>
      simp only [insertDesc]
      by_cases h : x.mongoId ≤ p.mongoId
      · simp only [h, if_true, List.mem_cons]
      · simp only [h, if_false, List.mem_cons, ih]
        tauto

theorem mem_sortByIdDesc (q : Product) (l : List Product) :
    q ∈ sortByIdDesc l ↔ q ∈ l := by
  induction l with
  | nil => simp [sortByIdDesc]
  | cons x xs ih =>
      simp only [sortByIdDesc, List.foldr_cons] at *
      rw [mem_insertDesc, ih, List.mem_cons]

theorem length_insertDesc (p : Product) (l : List Product) :
    (insertDesc p l).length = l.length + 1 := by
  induction l with
  | nil => rfl
  | cons x xs ih =>
      simp only [insertDesc]
      by_cases h : x.mongoId ≤ p.mongoId
      · simp [h]
      · simp [h, ih]

theorem length_sortByIdDesc (l : List Product) :
    (sortByIdDesc l).length = l.length := by
  induction l with
  | nil => rfl
  | cons x xs ih =>
      simp only [sortByIdDesc, List.foldr_cons] at *
      rw [length_insertDesc, ih]
      rfl

/-- After any GET /api/products invocation the cache slot holds exactly the
returned list (a hit serves the slot, a miss populates it). -/
theorem getProducts_cache_holds_response (now : Nat) (s : ServerState) :
    (getProducts now s).state.productsCache = some (getProducts now s).response := by
  unfold getProducts
  cases hc : s.productsCache with
  | none => simp
  | some cached =>
      by_cases h : now - s.cacheTimestamp < CACHE_DURATION
      · simp [h, hc]
      · simp [h]

theorem deleteById_of_absent (id : Nat) (l : List Product)
    (h : ∀ p ∈ l, p.mongoId ≠ id) : deleteById id l = (none, l) := by
  induction l with
  | nil => rfl
  | cons x xs ih =>
      have hx : x.mongoId ≠ id := h x (List.mem_cons_self x xs)
      simp only [deleteById, hx, if_false]
      rw [ih (fun p hp => h p (List.mem_cons_of_mem x hp))]

theorem findOneAndUpdateTracking_of_absent (qrId : String) (b : TrackingBody)
    (l : List TrackingRecord) (h : ∀ t ∈ l, t.qrId ≠ qrId) :
    findOneAndUpdateTracking qrId b l = (none, l) := by
  induction l with
  | nil => rfl
  | cons x xs ih =>
      have hx : x.qrId ≠ qrId := h x (List.mem_cons_self x xs)
      simp only [findOneAndUpdateTracking, hx, if_false]
      rw [ih (fun t ht => h t (List.mem_cons_of_mem x ht))]

theorem findOneAndDeleteTracking_of_absent (qrId : String)
    (l : List TrackingRecord) (h : ∀ t ∈ l, t.qrId ≠ qrId) :
    findOneAndDeleteTracking qrId l = (none, l) := by
  induction l with
  | nil => rfl
  | cons x xs ih =>
      have hx : x.qrId ≠ qrId := h x (List.mem_cons_self x xs)
      simp only [findOneAndDeleteTracking, hx, if_false]
      rw [ih (fun t ht => h t (List.mem_cons_of_mem x ht))]

theorem findOneAndUpdateOrder_of_absent (orderId : String) (b : OrderUpdateBody)
    (l : List Order) (h : ∀ o ∈ l, o.orderId ≠ orderId) :
    findOneAndUpdateOrder orderId b l = (none, l) := by
  induction l with
  | nil => rfl
  | cons x xs ih =>
      have hx : x.orderId ≠ orderId := h x (List.mem_cons_self x xs)
      simp only [findOneAndUpdateOrder, hx, if_false]
      rw [ih (fun o ho => h o (List.mem_cons_of_mem x ho))]

theorem findOneAndDeleteOrder_of_absent (orderId : String)
    (l : List Order) (h : ∀ o ∈ l, o.orderId ≠ orderId) :
    findOneAndDeleteOrder orderId l = (none, l) := by
  induction l with
  | nil => rfl
  | cons x xs ih =>
      have hx : x.orderId ≠ orderId := h x (List.mem_cons_self x xs)
      simp only [findOneAndDeleteOrder, hx, if_false]
      rw [ih (fun o ho => h o (List.mem_cons_of_mem x ho))]

/-- `updateById` on a list with pairwise-distinct ids (the Mongo `_id`
unique index) applied at the id of a member patches exactly that member. -/
theorem updateById_first (id : Nat) (patch : ProductFields) (l : List Product)
    (p : Product) (hnd : (l.map Product.mongoId).Nodup) (hmem : p ∈ l)
    (hid : p.mongoId = id) :
    (updateById id patch l).1 = some ⟨id, applyPatch p.fields patch⟩ := by
  induction l with
  | nil => cases hmem
  | cons x xs ih =>
      rw [List.map_cons, List.nodup_cons] at hnd
      by_cases hx : x.mongoId = id
      · have hpx : p = x := by
          rcases List.mem_cons.mp hmem with h | h
          · exact h
          · exfalso
            apply hnd.1
            have hmm : p.mongoId ∈ xs.map Product.mongoId :=
              List.mem_map_of_mem Product.mongoId h
            rw [hid, ← hx] at hmm
            exact hmm
        subst hpx
        simp [updateById, hx]
      · have hpm : p ∈ xs := by
          rcases List.mem_cons.mp hmem with h | h
          · rw [h] at hid
            exact absurd hid hx
          · exact h
        simp only [updateById, hx, if_false]
        exact ih hnd.2 hpm

/-- A cache hit: a non-null slot younger than `CACHE_DURATION` is served
unchanged. -/
theorem getProducts_hit (now : Nat) (s : ServerState) (l : List TransformedProduct)
    (hc : s.productsCache = some l) (ht : now - s.cacheTimestamp < CACHE_DURATION) :
    getProducts now s = ⟨l, s, true⟩ := by
  unfold getProducts
  rw [hc]
  simp [ht]

/-- A cache miss: a null slot queries the store, populates the slot and
returns the query result. -/
theorem getProducts_miss (now : Nat) (s : ServerState) (h : s.productsCache = none) :
    getProducts now s = ⟨queryProducts s.store,
      { s with productsCache := some (queryProducts s.store), cacheTimestamp := now },
      false⟩ := by
  unfold getProducts
  rw [h]

/-- Every stored product appears in the query result as long as the store
holds at most the 100-document query limit. -/
theorem mem_queryProducts (st : StoreState) (p : Product)
    (hlen : st.products.length ≤ 100) (hp : p ∈ st.products) :
    transformProduct p ∈ queryProducts st := by
  unfold queryProducts
  rw [List.take_of_length_le (by rw [length_sortByIdDesc]; exact hlen)]
  exact List.mem_map_of_mem transformProduct ((mem_sortByIdDesc p st.products).mpr hp)

/-! ## Concrete sample world used by witnesses and counterexamples -/

/-- A stored product with `_id` 0. -/
def pA : Product := ⟨0, { name := some "Widget", category := some "Phones", price := some 100 }⟩

/-- A creation body. -/
def bodyB : ProductFields := { name := some "Gadget", price := some 200 }

/-- A patch body touching only the price. -/
def patchPrice : ProductFields := { price := some 50 }

/-- A server state holding the single product `pA`, empty tracking and
orders, and an empty cache slot. -/
def sA : ServerState := { store := { products := [pA], nextProductId := 1 } }

/-! ## Claim theorems -/

/-- Claim C9: two product-list reads performed while the cached snapshot is
inside the 60-second freshness window, with no intervening product write,
return bit-identical lists; the second read is served from the cached
snapshot and has no side effect at all: after any first read the cache
slot holds exactly the returned list, and a second read whose time is
within `CACHE_DURATION` of that slot timestamp returns the same list, the
same state, from the cache. -/
theorem second_read_within_window_served_from_cache
    (t1 t2 : Nat) (s : ServerState)
    (h : t2 - (getProducts t1 s).state.cacheTimestamp < CACHE_DURATION) :
    getProducts t2 ((getProducts t1 s).state) =
      ⟨(getProducts t1 s).response, (getProducts t1 s).state, true⟩ :=
  getProducts_hit t2 _ _ (getProducts_cache_holds_response t1 s) h

/-- Witness for C9: in the sample state the first read at t = 0 populates
the cache and a second read at t = 1000 is served from it unchanged. -/
theorem second_read_within_window_witness :
    1000 - (getProducts 0 sA).state.cacheTimestamp < CACHE_DURATION ∧
    getProducts 1000 ((getProducts 0 sA).state) =
      ⟨(getProducts 0 sA).response, (getProducts 0 sA).state, true⟩ :=
  ⟨by decide, second_read_within_window_served_from_cache 0 1000 sA (by decide)⟩

/-- Claim C8: deleting a product id that resolves to no document returns
the 404 not-found response, performs no cache invalidation, publishes no
event, and leaves the whole state — cache slot included — exactly as it
was. -/
theorem deleteProduct_missing_id_not_found_no_effects
    (id : Nat) (s : ServerState)
    (h : ∀ p ∈ s.store.products, p.mongoId ≠ id) :
    deleteProductHandler id s =
      { response := .notFound "Product not found", state := s, events := [],
        trace := [.respond] } ∧
    (deleteProductHandler id s).state.productsCache = s.productsCache := by
  have hd := deleteById_of_absent id s.store.products h
  constructor
  · simp [deleteProductHandler, hd]
  · simp [deleteProductHandler, hd]

/-- Witness for C8: deleting id 5 in the sample state (which only holds
id 0) is a 404 with no effect. -/
theorem deleteProduct_missing_id_witness :
    (∀ p ∈ sA.store.products, p.mongoId ≠ 5) ∧
    deleteProductHandler 5 sA =
      { response := .notFound "Product not found", state := sA, events := [],
        trace := [.respond] } :=
  ⟨by decide, (deleteProduct_missing_id_not_found_no_effects 5 sA (by decide)).1⟩

/-- Claim C10: deleting a tracking record by a qrId that resolves to no
record still responds with success and still broadcasts `tracking-deleted`
for that qrId — never a not-found — unlike the order delete (and the
product delete, see the C8 theorem), which 404s on a missing key. -/
theorem deleteTracking_absent_succeeds_and_broadcasts
    (qrId : String) (s : ServerState)
    (ht : ∀ t ∈ s.store.tracking, t.qrId ≠ qrId) :
    deleteTrackingHandler qrId s =
      { response := .ok true, state := s, events := [.trackingDeleted qrId],
        trace := [.storeWrite, .publish, .respond] } ∧
    (deleteTrackingHandler qrId s).response.isNotFound = false ∧
    (∀ orderId, (∀ o ∈ s.store.orders, o.orderId ≠ orderId) →
      (deleteOrderHandler orderId s).response.isNotFound = true) := by
  have hd := findOneAndDeleteTracking_of_absent qrId s.store.tracking ht
  refine ⟨?_, ?_, ?_⟩
  · simp [deleteTrackingHandler, hd]
  · simp [deleteTrackingHandler, hd, ApiResp.isNotFound]
  · intro orderId ho
    have hdo := findOneAndDeleteOrder_of_absent orderId s.store.orders ho
    simp [deleteOrderHandler, hdo, ApiResp.isNotFound]

/-- Witness for C10: deleting the absent qrId QRX in the sample state
succeeds and broadcasts. -/
theorem deleteTracking_absent_witness :
    (∀ t ∈ sA.store.tracking, t.qrId ≠ "QRX") ∧
    deleteTrackingHandler "QRX" sA =
      { response := .ok true, state := sA, events := [.trackingDeleted "QRX"],
        trace := [.storeWrite, .publish, .respond] } :=
  ⟨by decide, (deleteTracking_absent_succeeds_and_broadcasts "QRX" sA (by decide)).1⟩

/-- Counterexample to claim C5: in the sample state (no tracking records,
no orders) a PUT of the absent key QR404 or ORD404 does not fail with a
not-found response — it succeeds with a 200 whose body is null and still
broadcasts the update event with a null payload. -/
theorem put_update_absent_key_succeeds_cex :
    (putTrackingHandler "QR404" {} sA).response = .ok none ∧
    (putTrackingHandler "QR404" {} sA).response.isNotFound = false ∧
    (putTrackingHandler "QR404" {} sA).events = [.trackingUpdated none] ∧
    (putOrderHandler "ORD404" {} sA).response = .ok none ∧
    (putOrderHandler "ORD404" {} sA).response.isNotFound = false ∧
    (putOrderHandler "ORD404" {} sA).events = [.orderUpdated none] := by decide

/-- Claim C5 as amended: an order update or tracking update addressed by an
absent business key does not 404 — `findOneAndUpdate` yields null, which
the handler emits and returns as-is: a 200 response with a null record, an
update event with a null payload, and an unchanged store. -/
theorem put_update_absent_key_returns_null_ok
    (qrId orderId : String) (tb : TrackingBody) (ob : OrderUpdateBody) (s : ServerState)
    (ht : ∀ t ∈ s.store.tracking, t.qrId ≠ qrId)
    (ho : ∀ o ∈ s.store.orders, o.orderId ≠ orderId) :
    putTrackingHandler qrId tb s =
      { response := .ok none, state := s, events := [.trackingUpdated none],
        trace := [.storeWrite, .publish, .respond] } ∧
    putOrderHandler orderId ob s =
      { response := .ok none, state := s, events := [.orderUpdated none],
        trace := [.storeWrite, .publish, .respond] } := by
  have h1 := findOneAndUpdateTracking_of_absent qrId tb s.store.tracking ht
  have h2 := findOneAndUpdateOrder_of_absent orderId ob s.store.orders ho
  constructor
  · simp [putTrackingHandler, h1]
  · simp [putOrderHandler, h2]

/-- Witness for the amended C5 at the concrete absent keys QR9 and O9. -/
theorem put_update_absent_key_witness :
    (∀ t ∈ sA.store.tracking, t.qrId ≠ "QR9") ∧
    putTrackingHandler "QR9" {} sA =
      { response := .ok none, state := sA, events := [.trackingUpdated none],
        trace := [.storeWrite, .publish, .respond] } :=
  ⟨by decide,
   (put_update_absent_key_returns_null_ok "QR9" "O9" {} {} sA (by decide) (by decide)).1⟩

/-- Claim C7: a PATCH of an existing product updates only the fields
supplied in the body and leaves every other schema field of that product
unchanged (`$set` merge, never a full overwrite): the handler responds
with the stored document patched by `applyPatch`, and `applyPatch` keeps
every field whose patch entry is absent and installs every supplied one. -/
theorem patchProduct_merges_only_supplied_fields
    (s : ServerState) (p : Product) (body : ProductFields)
    (hnd : (s.store.products.map Product.mongoId).Nodup)
    (hmem : p ∈ s.store.products) :
    (patchProductHandler p.mongoId body s).response =
      .ok (transformProduct ⟨p.mongoId, applyPatch p.fields body⟩) ∧
    (body.name = none → (applyPatch p.fields body).name = p.fields.name) ∧
    (body.category = none → (applyPatch p.fields body).category = p.fields.category) ∧
    (body.price = none → (applyPatch p.fields body).price = p.fields.price) ∧
    (body.originalPrice = none →
      (applyPatch p.fields body).originalPrice = p.fields.originalPrice) ∧
    (body.image = none → (applyPatch p.fields body).image = p.fields.image) ∧
    (body.imageUrl = none → (applyPatch p.fields body).imageUrl = p.fields.imageUrl) ∧
    (body.imageUrl2 = none → (applyPatch p.fields body).imageUrl2 = p.fields.imageUrl2) ∧
    (body.rating = none → (applyPatch p.fields body).rating = p.fields.rating) ∧
    (body.reviews = none → (applyPatch p.fields body).reviews = p.fields.reviews) ∧
    (body.inStock = none → (applyPatch p.fields body).inStock = p.fields.inStock) ∧
    (body.badge = none → (applyPatch p.fields body).badge = p.fields.badge) ∧
    (body.qrId = none → (applyPatch p.fields body).qrId = p.fields.qrId) ∧
    (body.qrPassword = none →
      (applyPatch p.fields body).qrPassword = p.fields.qrPassword) ∧
    (body.trackingStatus = none →
      (applyPatch p.fields body).trackingStatus = p.fields.trackingStatus) ∧
    (body.ownerGender = none →
      (applyPatch p.fields body).ownerGender = p.fields.ownerGender) ∧
    (∀ v, body.price = some v → (applyPatch p.fields body).price = some v) := by
  have hresp : (patchProductHandler p.mongoId body s).response =
      .ok (transformProduct ⟨p.mongoId, applyPatch p.fields body⟩) := by
    rcases hu2 : updateById p.mongoId body s.store.products with ⟨o, l2⟩
    have ho : o = some ⟨p.mongoId, applyPatch p.fields body⟩ := by
      have h1 := updateById_first p.mongoId body s.store.products p hnd hmem rfl
      rw [hu2] at h1
      exact h1
    subst ho
    simp [patchProductHandler, hu2]
  refine ⟨hresp, ?_, ?_, ?_, ?_, ?_, ?_, ?_, ?_, ?_, ?_, ?_, ?_, ?_, ?_, ?_, ?_⟩
  all_goals first
    | (intro h; simp [applyPatch, setField, h])
    | (intro v h; simp [applyPatch, setField, h])

/-- Witness for C7: patching only the price of the sample product leaves
its name as it was and sets the price to 50. -/
theorem patchProduct_merges_witness :
    (patchProductHandler 0 patchPrice sA).response =
      .ok (transformProduct ⟨0, applyPatch pA.fields patchPrice⟩) ∧
    (applyPatch pA.fields patchPrice).name = pA.fields.name ∧
    (applyPatch pA.fields patchPrice).price = some 50 := by
  obtain ⟨h1, h2, _, _, _, _, _, _, _, _, _, _, _, _, _, _, h17⟩ :=
    patchProduct_merges_only_supplied_fields sA pA patchPrice (by decide) (by decide)
  exact ⟨h1, h2 rfl, h17 50 rfl⟩

/-- Claim C3 is right about the intent and the code is wrong: a PATCH of an
id that resolves to no product does not produce the 404 not-found response
the dead check on lines 408-410 intends; `console.log("product id: ",
product._id)` on line 406 dereferences the null result first, so the catch
produces a 500 server error. No cache invalidation and no event do happen,
as the claim states. Evaluated at the concrete failing input: id 5 against
a store holding only id 0. -/
theorem patch_missing_id_returns_500_not_404 :
    patchProductHandler 5 patchPrice sA =
      { response := .serverError "TypeError: Cannot read properties of null",
        state := sA, events := [], trace := [.respond] } ∧
    (patchProductHandler 5 patchPrice sA).response.isNotFound = false := by
  decide

/-- The screenshot subdocument the POST /api/orders handler persists for an
accepted data string: the base64 string verbatim plus the client-supplied
file name and upload time (lines 561-565); no `imageUrl`, since no file is
saved to disk. -/
def storedShot (ss : PaymentScreenshot) (d : String) : PaymentScreenshot :=
  { imageUrl := none, data := some d, fileName := ss.fileName, uploadTime := ss.uploadTime }

/-- Claim C6: an order-creation request whose payment-screenshot payload
carries a data string that does not declare itself an image data payload,
or exceeds the 10 MiB ceiling, is rejected with a 400 client error and
nothing is persisted and no event is emitted; a conforming data string is
stored verbatim (opaquely) with the saved order. -/
theorem createOrder_screenshot_validation
    (now : Nat) (req : OrderRequest) (s : ServerState) (ss : PaymentScreenshot) (d : String)
    (hss : req.paymentScreenshot = some ss) (hd : ss.data = some d) (hne : d ≠ "") :
    ((d.startsWith "data:image/" = false ∨ 10 * 1024 * 1024 < d.length) →
      (createOrderHandler now req s).response.isBadRequest = true ∧
      (createOrderHandler now req s).state = s ∧
      (createOrderHandler now req s).events = []) ∧
    (d.startsWith "data:image/" = true → d.length ≤ 10 * 1024 * 1024 →
      (∀ o ∈ s.store.orders, o.orderId ≠ req.orderId) →
      (createOrderHandler now req s).response =
        .ok (mkOrderData now req (some (storedShot ss d))) ∧
      (createOrderHandler now req s).state.store.orders =
        mkOrderData now req (some (storedShot ss d)) :: s.store.orders ∧
      (createOrderHandler now req s).events =
        [.orderAdded (mkOrderData now req (some (storedShot ss d)))] ∧
      (mkOrderData now req (some (storedShot ss d))).paymentScreenshot =
        some (storedShot ss d) ∧
      (storedShot ss d).data = some d) := by
  constructor
  · rintro (hbad | hbig)
    · refine ⟨?_, ?_, ?_⟩ <;>
        simp [createOrderHandler, hss, hd, hne, hbad, ApiResp.isBadRequest]
    · cases hsw : d.startsWith "data:image/" with
      | false =>
          refine ⟨?_, ?_, ?_⟩ <;>
            simp [createOrderHandler, hss, hd, hne, hsw, ApiResp.isBadRequest]
      | true =>
          refine ⟨?_, ?_, ?_⟩ <;>
            simp [createOrderHandler, hss, hd, hne, hsw, hbig, ApiResp.isBadRequest]
  · intro hsw hlen hfresh
    have hany : s.store.orders.any (fun o => o.orderId = req.orderId) = false := by
      simp [List.any_eq_true]
      exact hfresh
    have hnlt : ¬ (10 * 1024 * 1024 < d.length) := Nat.not_lt.mpr hlen
    refine ⟨?_, ?_, ?_, ?_, ?_⟩ <;>
      simp [createOrderHandler, hss, hd, hne, hsw, hnlt, saveOrderStep, hany, mkOrderData,
        storedShot]

/-- A malformed order-creation request: screenshot data that does not
declare itself an image payload. -/
def reqBadShot : OrderRequest :=
  { orderId := "O1", paymentScreenshot := some { data := some "hello" } }

/-- Witness for C6: the request with screenshot data "hello" is rejected
400 without persisting anything or emitting any event. -/
theorem createOrder_screenshot_witness :
    (createOrderHandler 0 reqBadShot sA).response.isBadRequest = true ∧
    (createOrderHandler 0 reqBadShot sA).state = sA ∧
    (createOrderHandler 0 reqBadShot sA).events = [] :=
  (createOrder_screenshot_validation 0 reqBadShot sA
      { data := some "hello" } "hello" rfl rfl (by decide)).1
    (Or.inl (by decide))

/-- Claim C2 as amended: the GET query carries `.limit(100)`, so a miss
returns the (up to) 100 newest products by descending `_id`, populates the
cache with that list and returns it; whenever the store holds at most 100
products no stored product is omitted, and a product-list read issued
after a write (store still within the limit) reflects that write: the
write leaves the cache empty, so the read queries the post-write store. -/
theorem getProducts_miss_returns_store_upto_limit
    (now : Nat) (s : ServerState) (body : ProductFields)
    (hmiss : s.productsCache = none)
    (hlen : s.store.products.length ≤ 100) :
    ((getProducts now s).fromCache = false ∧
     (getProducts now s).response = queryProducts s.store ∧
     (∀ p ∈ s.store.products, transformProduct p ∈ (getProducts now s).response) ∧
     (getProducts now s).state.productsCache = some ((getProducts now s).response)) ∧
    (s.store.products.length < 100 →
     ∀ now2, transformProduct ⟨s.store.nextProductId, body⟩ ∈
       (getProducts now2 (createProductHandler body s).state).response) := by
  have hm := getProducts_miss now s hmiss
  constructor
  · refine ⟨?_, ?_, ?_, ?_⟩
    · rw [hm]
    · rw [hm]
    · intro p hp
      rw [hm]
      exact mem_queryProducts s.store p hlen hp
    · rw [hm]
  · intro hlt now2
    have hc : (createProductHandler body s).state.productsCache = none := rfl
    rw [getProducts_miss now2 _ hc]
    apply mem_queryProducts
    · show (⟨s.store.nextProductId, body⟩ :: s.store.products).length ≤ 100
      simp only [List.length_cons]
      omega
    · exact List.mem_cons_self _ _

/-- Witness for the amended C2: in the sample single-product state a miss
returns the whole store and a read right after a create contains the
created product. -/
theorem getProducts_miss_witness :
    sA.productsCache = none ∧
    sA.store.products.length ≤ 100 ∧
    (∀ p ∈ sA.store.products, transformProduct p ∈ (getProducts 3 sA).response) ∧
    transformProduct ⟨sA.store.nextProductId, bodyB⟩ ∈
      (getProducts 9 (createProductHandler bodyB sA).state).response := by
  have h := getProducts_miss_returns_store_upto_limit 3 sA bodyB (by decide) (by decide)
  exact ⟨rfl, by decide, h.1.2.2.1, h.2 (by decide) 9⟩

/-- A bare stored product with `_id` i and no other fields. -/
def mkSimpleProduct (i : Nat) : Product := ⟨i, {}⟩

/-- A server state whose store holds 101 products (ids 0 .. 100) and whose
cache slot is empty. -/
def sBig : ServerState :=
  { store := { products := (List.range 101).map mkSimpleProduct, nextProductId := 101 } }

/-- Counterexample to claim C2 as stated: with 101 stored products, a
product-list read on a cache miss omits the oldest product (id 0) from the
returned list — the query limits itself to the 100 newest — so a product
present in the Store is missing from the response. -/
theorem getProducts_omits_product_beyond_limit_cex :
    mkSimpleProduct 0 ∈ sBig.store.products ∧
    sBig.productsCache = none ∧
    (getProducts 7 sBig).response.length = 100 ∧
    transformProduct (mkSimpleProduct 0) ∉ (getProducts 7 sBig).response := by
  decide

/-- Claim C4 as amended: there is no version counter. `cacheTimestamp` only
feeds the 60-second freshness check; cache population overwrites the slot
unconditionally, so a populate carrying a snapshot taken before a newer
write lands on top of the invalidation of that write, and the resurrected stale
snapshot is then served from the cache to any read inside the freshness
window. -/
theorem populate_overwrites_invalidated_slot
    (s : ServerState) (body : ProductFields) (snapshot : List TransformedProduct)
    (now t2 : Nat) (h : t2 - now < CACHE_DURATION) :
    (createProductHandler body s).state.productsCache = none ∧
    ((readMissComplete now snapshot (createProductHandler body s).state).1).productsCache
      = some snapshot ∧
    getProducts t2 (readMissComplete now snapshot (createProductHandler body s).state).1
      = ⟨snapshot, (readMissComplete now snapshot (createProductHandler body s).state).1,
         true⟩ := by
  refine ⟨rfl, rfl, ?_⟩
  exact getProducts_hit t2 _ snapshot rfl h

/-- Witness for the amended C4: a concrete stale populate at t = 5 after a
create, overwriting the invalidated slot, served at t = 10. -/
theorem populate_overwrites_witness :
    10 - 5 < CACHE_DURATION ∧
    (createProductHandler bodyB sA).state.productsCache = none ∧
    ((readMissComplete 5 (queryProducts sA.store)
        (createProductHandler bodyB sA).state).1).productsCache
      = some (queryProducts sA.store) := by
  have h := populate_overwrites_invalidated_slot sA bodyB (queryProducts sA.store) 5 10
    (by decide)
  exact ⟨by decide, h.1, h.2.1⟩

/-- Counterexample to claim C4 as stated: a populate carrying the snapshot
read before a newer create does resurrect the slot that create had just
invalidated — the resurrected content differs from the current store
query. There is no version counter to stop it. -/
theorem stale_populate_resurrects_cex :
    (createProductHandler bodyB sA).state.productsCache = none ∧
    ((readMissComplete 5 (queryProducts sA.store)
        (createProductHandler bodyB sA).state).1).productsCache
      = some (queryProducts sA.store) ∧
    queryProducts sA.store ≠ queryProducts (createProductHandler bodyB sA).state.store := by
  decide

/-- Claim C1 as amended: inside every successful catalog write the cache
invalidation precedes the event publication, which precedes the HTTP
response, and the post-write cache slot is empty, so a read that reaches
the store after the write reflects it (for the create the response of an
immediately following read is exactly the post-write store query).
However the original consequent — no read issued after the response of a
write W ever returns data older than W — does not hold under interleaving:
a read whose store query started before W may populate the cache with
pre-W data after the response of W (see the counterexample theorem). -/
theorem catalog_writes_invalidate_then_publish_then_respond
    (s : ServerState) (body pbody : ProductFields) (id : Nat) :
    ((createProductHandler body s).trace =
        [.storeWrite, .invalidate, .publish, .respond] ∧
     idxOfEff .invalidate (createProductHandler body s).trace <
       idxOfEff .publish (createProductHandler body s).trace ∧
     idxOfEff .publish (createProductHandler body s).trace <
       idxOfEff .respond (createProductHandler body s).trace ∧
     (createProductHandler body s).state.productsCache = none ∧
     (∀ now, (getProducts now (createProductHandler body s).state).response =
        queryProducts (createProductHandler body s).state.store)) ∧
    ((patchProductHandler id pbody s).response.isOk = true →
     (patchProductHandler id pbody s).trace =
        [.storeWrite, .invalidate, .publish, .respond] ∧
     idxOfEff .invalidate (patchProductHandler id pbody s).trace <
       idxOfEff .publish (patchProductHandler id pbody s).trace ∧
     idxOfEff .publish (patchProductHandler id pbody s).trace <
       idxOfEff .respond (patchProductHandler id pbody s).trace ∧
     (patchProductHandler id pbody s).state.productsCache = none) ∧
    ((deleteProductHandler id s).response.isOk = true →
     (deleteProductHandler id s).trace =
        [.storeWrite, .invalidate, .publish, .respond] ∧
     idxOfEff .invalidate (deleteProductHandler id s).trace <
       idxOfEff .publish (deleteProductHandler id s).trace ∧
     idxOfEff .publish (deleteProductHandler id s).trace <
       idxOfEff .respond (deleteProductHandler id s).trace ∧
     (deleteProductHandler id s).state.productsCache = none) := by
  refine ⟨⟨rfl, ?_, ?_, rfl, ?_⟩, ?_, ?_⟩
  · show (1 : Nat) < 2
    norm_num
  · show (2 : Nat) < 3
    norm_num
  · intro now
    rw [getProducts_miss now _ rfl]
  · intro hok
    rcases hu : updateById id pbody s.store.products with ⟨o, l2⟩
    cases o with
    | none =>
        exfalso
        simp [patchProductHandler, hu, ApiResp.isOk] at hok
    | some p =>
        have htr : (patchProductHandler id pbody s).trace =
            [.storeWrite, .invalidate, .publish, .respond] := by
          simp [patchProductHandler, hu]
        have hst : (patchProductHandler id pbody s).state.productsCache = none := by
          simp [patchProductHandler, hu]
        exact ⟨htr, by rw [htr]; decide, by rw [htr]; decide, hst⟩
  · intro hok
    rcases hu : deleteById id s.store.products with ⟨o, l2⟩
    cases o with
    | none =>
        exfalso
        simp [deleteProductHandler, hu, ApiResp.isOk] at hok
    | some p =>
        have htr : (deleteProductHandler id s).trace =
            [.storeWrite, .invalidate, .publish, .respond] := by
          simp [deleteProductHandler, hu]
        have hst : (deleteProductHandler id s).state.productsCache = none := by
          simp [deleteProductHandler, hu]
        exact ⟨htr, by rw [htr]; decide, by rw [htr]; decide, hst⟩

/-- Witness for the amended C1 at the sample state: the successful patch
and delete of product id 0 and the create all carry the
invalidate-publish-respond trace. -/
theorem catalog_writes_ordering_witness :
    (patchProductHandler 0 patchPrice sA).response.isOk = true ∧
    (patchProductHandler 0 patchPrice sA).trace =
      [.storeWrite, .invalidate, .publish, .respond] ∧
    (deleteProductHandler 0 sA).response.isOk = true ∧
    (deleteProductHandler 0 sA).trace =
      [.storeWrite, .invalidate, .publish, .respond] ∧
    (createProductHandler bodyB sA).state.productsCache = none := by
  have h := catalog_writes_invalidate_then_publish_then_respond sA bodyB patchPrice 0
  exact ⟨by decide, (h.2.1 (by decide)).1, by decide, (h.2.2 (by decide)).1,
    h.1.2.2.2.1⟩

/-- Counterexample to claim C1 as stated: a read R issued at t = 10, after
the create W of product id 1 has produced its response, returns the
pre-W list — it contains no product with id 1 although the store query
does — because a concurrent read that began before W populated the cache
with the pre-W snapshot at t = 5, after the response of W. So R returns
product data strictly older than the effect of W. -/
theorem stale_read_after_write_response_cex :
    (createProductHandler bodyB sA).response.isOk = true ∧
    (getProducts 10 (readMissComplete 5 (queryProducts sA.store)
        (createProductHandler bodyB sA).state).1).response = queryProducts sA.store ∧
    (∀ tp ∈ (getProducts 10 (readMissComplete 5 (queryProducts sA.store)
        (createProductHandler bodyB sA).state).1).response, tp.mongoId ≠ 1) ∧
    (∃ tp ∈ queryProducts (createProductHandler bodyB sA).state.store,
        tp.mongoId = 1) := by
  decide

end MMW
